import Mathlib

/-!
Shallow embedding of `src/MLHelper/src/hypothesis_testing.py` (class
`TestHypothesis`) and proofs of the specification claims about it.

Modelling conventions:
* Numeric samples are `List ℚ`; categorical samples are `List ℕ`
  (category codes).  Python floats are idealized as exact rationals.
* The scipy statistics library is out of scope for the specification
  ("assumed provided by a standard statistics library"); each library
  call that only yields a p-value is modelled as an oracle field of
  `StatsLib`.  Expected contingency frequencies, which the source
  derives from `chi2_contingency`, are the mathematically determined
  quantity `row_total * col_total / grand_total` and are modelled
  exactly.
* Each operation returns the trace of its observable effects
  (`Event`s: advisory warnings, test-statistic computations, verdict
  prints) together with `Except Err (Bool × ℚ)`: `Err.validation`
  mirrors `raise ValueError`, `.ok (rejected, p_value)` mirrors the
  returned pair.
-/

/-- Error channel of the engine: `raise ValueError(msg)` in the source. -/
inductive Err where
  | validation (msg : String) : Err
deriving DecidableEq, Repr

/-- Observable effects of one call, in execution order: `warnings.warn`,
the computation of a test statistic by the statistics library, and the
verdict `print` inside `checkSignificance`. -/
inductive Event where
  | warned (msg : String) : Event
  | statComputed (name : String) : Event
  | verdict (rejected : Bool) : Event
deriving DecidableEq, Repr

/-- Returns true on `.error`, mirroring "the call raises". -/
def isErr {α : Type} : Except Err α → Bool
  | .error _ => true
  | .ok _ => false

/-- Oracle for the out-of-scope statistics library: each field returns the
p-value of the corresponding scipy call. -/
structure StatsLib where
  shapiro_p : List ℚ → ℚ
  kstest_p : List ℚ → ℚ
  levene_p : List (List ℚ) → ℚ
  bartlett_p : List (List ℚ) → ℚ
  ttest_1samp_p : List ℚ → ℚ → ℚ
  ttest_ind_p : List ℚ → List ℚ → Bool → ℚ
  ttest_rel_p : List ℚ → List ℚ → ℚ
  f_oneway_p : List (List ℚ) → ℚ
  mannwhitneyu_p : List ℚ → List ℚ → ℚ
  wilcoxon_p : List ℚ → List ℚ → ℚ
  kruskal_p : List (List ℚ) → ℚ
  chi2_contingency_p : List (List ℕ) → ℚ
  fisher_exact_p : List (List ℕ) → ℚ
  pearsonr_p : List ℚ → List ℚ → ℚ
  spearmanr_p : List ℚ → List ℚ → ℚ

/-- The engine: holds only the significance level, set at construction. -/
structure TestHypothesis where
  significance_level : ℚ

/-- Model of `isNormal`: size > 5000 uses the KS goodness-of-fit p-value, otherwise
the Shapiro p-value; normal iff p-value > significance level. -/
def isNormal (eng : TestHypothesis) (lib : StatsLib) (feature : List ℚ) : Bool :=
  if feature.length > 5000 then
    decide (lib.kstest_p feature > eng.significance_level)
  else
    decide (lib.shapiro_p feature > eng.significance_level)

/-- Model of `hasEqualVariance`: method "bartlett" raises if any feature is not
normal, else uses the bartlett p-value; any other method uses levene.
Returns true iff p-value > significance level. -/
def hasEqualVariance (eng : TestHypothesis) (lib : StatsLib)
    (features : List (List ℚ)) (method : String) :
    List Event × Except Err Bool :=
  if method = "bartlett" then
    if features.any (fun f => !isNormal eng lib f) then
      ([], .error (.validation "Bartlett test requires normality."))
    else
      ([.statComputed "bartlett"],
        .ok (decide (lib.bartlett_p features > eng.significance_level)))
  else
    ([.statComputed "levene"],
      .ok (decide (lib.levene_p features > eng.significance_level)))

/-- Model of `checkSignificance`: prints the verdict and returns
`(p_value < significance_level, p_value)`. -/
def checkSignificance (eng : TestHypothesis) (p_value : ℚ) :
    List Event × (Bool × ℚ) :=
  if p_value < eng.significance_level then
    ([.verdict true], (true, p_value))
  else
    ([.verdict false], (false, p_value))

/-- Model of `OneSampleTtest`: normality required unless `clt`; with `clt`, size
must exceed 30; then `ttest_1samp` and `checkSignificance`. -/
def OneSampleTtest (eng : TestHypothesis) (lib : StatsLib)
    (feature : List ℚ) (meu : ℚ) (clt : Bool) :
    List Event × Except Err (Bool × ℚ) :=
  if !isNormal eng lib feature && !clt then
    ([], .error (.validation "Sample is not Normally distributed"))
  else if !isNormal eng lib feature && decide (feature.length ≤ 30) then
    ([], .error (.validation "Unable to apply CLT for feature size < 30"))
  else
    (Event.statComputed "ttest_1samp" ::
        (checkSignificance eng (lib.ttest_1samp_p feature meu)).1,
      .ok (checkSignificance eng (lib.ttest_1samp_p feature meu)).2)

/-- Model of `twoSampleTtest`: equal sizes required; normality of both required
unless `clt` (with the size-30 gate on `feature1`); variance equality via
levene decides the `equal_var` flag for `ttest_ind`. -/
def twoSampleTtest (eng : TestHypothesis) (lib : StatsLib)
    (feature1 feature2 : List ℚ) (clt : Bool) :
    List Event × Except Err (Bool × ℚ) :=
  if feature1.length ≠ feature2.length then
    ([], .error (.validation "Samples are of different sizes"))
  else if (!isNormal eng lib feature1 || !isNormal eng lib feature2) && !clt then
    ([], .error (.validation "Samples are not Normally distributed"))
  else if (!isNormal eng lib feature1 || !isNormal eng lib feature2)
      && decide (feature1.length ≤ 30) then
    ([], .error (.validation "Unable to apply CLT for feature size < 30"))
  else
    match (hasEqualVariance eng lib [feature1, feature2] "levene").2 with
    | .error e => ((hasEqualVariance eng lib [feature1, feature2] "levene").1, .error e)
    | .ok equal_var =>
      ((hasEqualVariance eng lib [feature1, feature2] "levene").1 ++
          Event.statComputed "ttest_ind" ::
            (checkSignificance eng (lib.ttest_ind_p feature1 feature2 equal_var)).1,
        .ok (checkSignificance eng (lib.ttest_ind_p feature1 feature2 equal_var)).2)

/-- Model of `pairedTtest`: same normality/clt rule, no length check, `ttest_rel`. -/
def pairedTtest (eng : TestHypothesis) (lib : StatsLib)
    (feature1 feature2 : List ℚ) (clt : Bool) :
    List Event × Except Err (Bool × ℚ) :=
  if (!isNormal eng lib feature1 || !isNormal eng lib feature2) && !clt then
    ([], .error (.validation "Samples are not Normally distributed"))
  else if (!isNormal eng lib feature1 || !isNormal eng lib feature2)
      && decide (feature1.length ≤ 30) then
    ([], .error (.validation "Unable to apply CLT for feature size < 30"))
  else
    (Event.statComputed "ttest_rel" ::
        (checkSignificance eng (lib.ttest_rel_p feature1 feature2)).1,
      .ok (checkSignificance eng (lib.ttest_rel_p feature1 feature2)).2)

/-- The warning message of the ANOVA sample-size loop. -/
def anovaSizeWarning : String :=
  "Please ensure all the samples are of same length.\nTry downsampling the larger samples."

/-- The ANOVA normality loop: raises at the first feature that is not
normal when `clt` is off, or the first non-normal feature of size ≤ 30
when `clt` is on; otherwise passes. -/
def anovaNormalityCheck (eng : TestHypothesis) (lib : StatsLib)
    (clt : Bool) : List (List ℚ) → Option Err
  | [] => none
  | f :: rest =>
    if !isNormal eng lib f then
      if !clt then some (.validation "Sample is not Normally distributed")
      else if f.length ≤ 30 then
        some (.validation "Unable to apply CLT for feature size < 30")
      else anovaNormalityCheck eng lib clt rest
    else anovaNormalityCheck eng lib clt rest

/-- The part of `ANOVA` after the sample-size warning loop: normality
loop, bartlett variance check (result unused, as in the source), then
`f_oneway` and `checkSignificance`. -/
def anovaAfterSizeCheck (eng : TestHypothesis) (lib : StatsLib)
    (features : List (List ℚ)) (clt : Bool) :
    List Event × Except Err (Bool × ℚ) :=
  match anovaNormalityCheck eng lib clt features with
  | some e => ([], .error e)
  | none =>
    match (hasEqualVariance eng lib features "bartlett").2 with
    | .error e => ((hasEqualVariance eng lib features "bartlett").1, .error e)
    | .ok _equal_var =>
      ((hasEqualVariance eng lib features "bartlett").1 ++
          Event.statComputed "f_oneway" ::
            (checkSignificance eng (lib.f_oneway_p features)).1,
        .ok (checkSignificance eng (lib.f_oneway_p features)).2)

/-- Model of `ANOVA`: warns (once) if some sample length differs from the
length of the first sample, then runs the rest of the pipeline.  The source indexes
`features[0]`, so the model is meaningful for nonempty `features`. -/
def ANOVA (eng : TestHypothesis) (lib : StatsLib)
    (features : List (List ℚ)) (clt : Bool) :
    List Event × Except Err (Bool × ℚ) :=
  let n := features.headI.length
  let wEvents :=
    if features.any (fun f => f.length ≠ n) then [Event.warned anovaSizeWarning]
    else []
  (wEvents ++ (anovaAfterSizeCheck eng lib features clt).1,
    (anovaAfterSizeCheck eng lib features clt).2)

/-- Model of `mannWhitneyUtest`: warns on large size difference and when both
samples are normal; never raises. -/
def mannWhitneyUtest (eng : TestHypothesis) (lib : StatsLib)
    (feature1 feature2 : List ℚ) :
    List Event × Except Err (Bool × ℚ) :=
  let len1 : ℚ := feature1.length
  let len2 : ℚ := feature2.length
  let w1 :=
    if |len1 - len2| > (1/2) * min len1 len2 then
      [Event.warned "Warning: Large sample size difference may affect test accuracy!"]
    else []
  let w2 :=
    if isNormal eng lib feature1 && isNormal eng lib feature2 then
      [Event.warned "Features are normal, Consider using t-test instead"]
    else []
  (w1 ++ w2 ++ Event.statComputed "mannwhitneyu" ::
      (checkSignificance eng (lib.mannwhitneyu_p feature1 feature2)).1,
    .ok (checkSignificance eng (lib.mannwhitneyu_p feature1 feature2)).2)

/-- Model of `wilcoxonSignedRanktest`: raises if sizes differ; warns when both
samples are normal; then `wilcoxon` and `checkSignificance`. -/
def wilcoxonSignedRanktest (eng : TestHypothesis) (lib : StatsLib)
    (feature1 feature2 : List ℚ) :
    List Event × Except Err (Bool × ℚ) :=
  if feature1.length ≠ feature2.length then
    ([], .error (.validation "Sample sizes are different.\nTry using samples with same sizes"))
  else
    let w :=
      if isNormal eng lib feature1 && isNormal eng lib feature2 then
        [Event.warned "Features are normal, Consider using Paired sample t-test instead"]
      else []
    (w ++ Event.statComputed "wilcoxon" ::
        (checkSignificance eng (lib.wilcoxon_p feature1 feature2)).1,
      .ok (checkSignificance eng (lib.wilcoxon_p feature1 feature2)).2)

/-- Model of `kruskalWallis`: no precondition, `kruskal` then `checkSignificance`. -/
def kruskalWallis (eng : TestHypothesis) (lib : StatsLib)
    (features : List (List ℚ)) :
    List Event × Except Err (Bool × ℚ) :=
  (Event.statComputed "kruskal" :: (checkSignificance eng (lib.kruskal_p features)).1,
    .ok (checkSignificance eng (lib.kruskal_p features)).2)

/-- Distinct categories of a sequence, in order of first occurrence
(the index/column labels of `pd.crosstab`). -/
def cats (l : List ℕ) : List ℕ :=
  l.foldl (fun acc x => if x ∈ acc then acc else acc ++ [x]) []

/-- Number of observations with first coordinate `a` and second `b`. -/
def pairCount (pairs : List (ℕ × ℕ)) (a b : ℕ) : ℕ :=
  (pairs.filter (fun p => p.1 = a && p.2 = b)).length

/-- The contingency table `pd.crosstab(feature1, feature2)` as a matrix of
counts, rows indexed by `cats feature1`, columns by `cats feature2`. -/
def crosstab (feature1 feature2 : List ℕ) : List (List ℕ) :=
  (cats feature1).map (fun a =>
    (cats feature2).map (fun b => pairCount (feature1.zip feature2) a b))

/-- Expected frequency of cell `(a, b)` under independence:
`row_total * col_total / grand_total`, the value `chi2_contingency`
returns in its `expected` array. -/
def expectedFreq (feature1 feature2 : List ℕ) (a b : ℕ) : ℚ :=
  let pairs := feature1.zip feature2
  (((pairs.filter (fun p => p.1 = a)).length : ℚ) *
      ((pairs.filter (fun p => p.2 = b)).length : ℚ)) / (pairs.length : ℚ)

/-- All cells of the contingency table. -/
def tableCells (feature1 feature2 : List ℕ) : List (ℕ × ℕ) :=
  (cats feature1).product (cats feature2)

/-- Number of cells whose expected frequency is below 5:
`(expected < 5).sum()` in the source. -/
def lowExpectedCount (feature1 feature2 : List ℕ) : ℕ :=
  ((tableCells feature1 feature2).filter
    (fun c => decide (expectedFreq feature1 feature2 c.1 c.2 < 5))).length

/-- Model of `chiSquare`: builds the contingency table, computes the chi-square
statistic (and with it the expected frequencies), and only then raises if
strictly more than 20% of the expected cells are below 5; otherwise
`checkSignificance`. -/
def chiSquare (eng : TestHypothesis) (lib : StatsLib)
    (feature1 feature2 : List ℕ) :
    List Event × Except Err (Bool × ℚ) :=
  let ct := crosstab feature1 feature2
  let p_value := lib.chi2_contingency_p ct
  if (lowExpectedCount feature1 feature2 : ℚ) >
      (2/10) * ((tableCells feature1 feature2).length : ℚ) then
    ([.statComputed "chi2_contingency"],
      .error (.validation "Some expected frequencies are too small, Fishers test is preferred."))
  else
    (Event.statComputed "chi2_contingency" :: (checkSignificance eng p_value).1,
      .ok (checkSignificance eng p_value).2)

/-- Model of `fisherExacttest`: warns when both sample lengths are ≥ 5, then the
contingency table, `fisher_exact` and `checkSignificance`. -/
def fisherExacttest (eng : TestHypothesis) (lib : StatsLib)
    (feature1 feature2 : List ℕ) :
    List Event × Except Err (Bool × ℚ) :=
  let w :=
    if 5 ≤ feature1.length && 5 ≤ feature2.length then
      [Event.warned "Sample lengths are >=5.\nTry using Chi-Square test."]
    else []
  let ct := crosstab feature1 feature2
  (w ++ Event.statComputed "fisher_exact" ::
      (checkSignificance eng (lib.fisher_exact_p ct)).1,
    .ok (checkSignificance eng (lib.fisher_exact_p ct)).2)

/-- Mean of a sample, as used by `np.var`. -/
def sampleMean (f : List ℚ) : ℚ := f.sum / (f.length : ℚ)

/-- Sum of squared deviations from the mean (the numerator of
`np.var(f, ddof=1)`). -/
def ssd (f : List ℚ) : ℚ :=
  (f.map (fun x => (x - sampleMean f) ^ 2)).sum

/-- Model of the check `np.var(f, ddof=1) == 0`: the sample variance `ssd / (n - 1)` is zero,
which needs `n ≥ 2` (for `n ≤ 1` numpy yields NaN, which compares unequal
to 0) and all deviations zero. -/
def sampleVarZero (f : List ℚ) : Bool :=
  decide (2 ≤ f.length) && decide (ssd f = 0)

/-- Model of `pearsonCorrelation`: raises if lengths differ, then if either sample
variance is zero, then if either sample is not normal; then `pearsonr`
and `checkSignificance`. -/
def pearsonCorrelation (eng : TestHypothesis) (lib : StatsLib)
    (feature1 feature2 : List ℚ) :
    List Event × Except Err (Bool × ℚ) :=
  if feature1.length ≠ feature2.length then
    ([], .error (.validation "Sample lenghts are not equal.\nTry using downsampling methods."))
  else if sampleVarZero feature1 || sampleVarZero feature2 then
    ([], .error (.validation "Variance of feature should not be 0.\nTry using Spearman Correlation instead."))
  else if !isNormal eng lib feature1 || !isNormal eng lib feature2 then
    ([], .error (.validation "Samples are not normally distributed."))
  else
    (Event.statComputed "pearsonr" ::
        (checkSignificance eng (lib.pearsonr_p feature1 feature2)).1,
      .ok (checkSignificance eng (lib.pearsonr_p feature1 feature2)).2)

/-- Model of `spearmanCorrelation`: raises if lengths differ, then `spearmanr` and
`checkSignificance`. -/
def spearmanCorrelation (eng : TestHypothesis) (lib : StatsLib)
    (feature1 feature2 : List ℚ) :
    List Event × Except Err (Bool × ℚ) :=
  if feature1.length ≠ feature2.length then
    ([], .error (.validation "Sample lenghts are not equal.\nTry using downsampling methods."))
  else
    (Event.statComputed "spearmanr" ::
        (checkSignificance eng (lib.spearmanr_p feature1 feature2)).1,
      .ok (checkSignificance eng (lib.spearmanr_p feature1 feature2)).2)

/-! Concrete engine and library oracles, used by witnesses and
counterexamples below. -/

/-- An engine with the default significance level 0.05. -/
def engW : TestHypothesis := ⟨1/20⟩

/-- A library oracle returning p-value 0 everywhere: no sample is normal
and every verdict rejects. -/
def libLow : StatsLib :=
  { shapiro_p := fun _ => 0, kstest_p := fun _ => 0,
    levene_p := fun _ => 0, bartlett_p := fun _ => 0,
    ttest_1samp_p := fun _ _ => 0, ttest_ind_p := fun _ _ _ => 0,
    ttest_rel_p := fun _ _ => 0, f_oneway_p := fun _ => 0,
    mannwhitneyu_p := fun _ _ => 0, wilcoxon_p := fun _ _ => 0,
    kruskal_p := fun _ => 0, chi2_contingency_p := fun _ => 0,
    fisher_exact_p := fun _ => 0, pearsonr_p := fun _ _ => 0,
    spearmanr_p := fun _ _ => 0 }

/-- A library oracle returning p-value 1 everywhere: every sample is
normal and no verdict rejects. -/
def libHigh : StatsLib :=
  { shapiro_p := fun _ => 1, kstest_p := fun _ => 1,
    levene_p := fun _ => 1, bartlett_p := fun _ => 1,
    ttest_1samp_p := fun _ _ => 1, ttest_ind_p := fun _ _ _ => 1,
    ttest_rel_p := fun _ _ => 1, f_oneway_p := fun _ => 1,
    mannwhitneyu_p := fun _ _ => 1, wilcoxon_p := fun _ _ => 1,
    kruskal_p := fun _ => 1, chi2_contingency_p := fun _ => 1,
    fisher_exact_p := fun _ => 1, pearsonr_p := fun _ _ => 1,
    spearmanr_p := fun _ _ => 1 }

/-- Categorical fixture: first coordinates of 8 observations that fill a
2×2 contingency table with every cell count 2 (so every expected
frequency is 2 < 5). -/
def cx1 : List ℕ := [0, 0, 1, 1, 0, 1, 0, 1]

/-- Categorical fixture: second coordinates of the 8 observations. -/
def cx2 : List ℕ := [0, 1, 0, 1, 1, 0, 0, 1]

/-- Categorical fixture: first coordinates of 40 observations filling a
2×2 table with every cell count 10 (every expected frequency is 10). -/
def cy1 : List ℕ :=
  List.replicate 20 0 ++ List.replicate 20 1

/-- Categorical fixture: second coordinates of the 40 observations. -/
def cy2 : List ℕ :=
  List.replicate 10 0 ++ List.replicate 10 1 ++
    List.replicate 10 0 ++ List.replicate 10 1

/-! Helper lemmas shared by the claim proofs. -/

/-- The pair returned by `checkSignificance` is
`(p_value < significance_level, p_value)`. -/
theorem checkSignificance_snd (eng : TestHypothesis) (p : ℚ) :
    (checkSignificance eng p).2 = (decide (p < eng.significance_level), p) := by
  unfold checkSignificance
  by_cases h : p < eng.significance_level <;> simp [h]

/-- Any pair returned by `checkSignificance` satisfies the `TestResult`
invariant. -/
theorem checkSignificance_inv (eng : TestHypothesis) (p : ℚ) :
    (checkSignificance eng p).2.1 =
      decide ((checkSignificance eng p).2.2 < eng.significance_level) := by
  rw [checkSignificance_snd]

/-- Method "bartlett" of `hasEqualVariance` errors exactly when some
feature is not normal. -/
theorem hasEqualVariance_bartlett_isErr (eng : TestHypothesis) (lib : StatsLib)
    (features : List (List ℚ)) :
    isErr (hasEqualVariance eng lib features "bartlett").2 = true ↔
      ∃ f ∈ features, isNormal eng lib f = false := by
  have hb : isErr (hasEqualVariance eng lib features "bartlett").2 =
      features.any (fun f => !isNormal eng lib f) := by
    unfold hasEqualVariance
    by_cases h : features.any (fun f => !isNormal eng lib f) <;> simp [h, isErr]
  rw [hb, List.any_eq_true]
  simp

/-- Method "levene" of `hasEqualVariance` never errors and returns the
levene p-value comparison. -/
theorem hasEqualVariance_levene_eq (eng : TestHypothesis) (lib : StatsLib)
    (features : List (List ℚ)) :
    hasEqualVariance eng lib features "levene" =
      ([.statComputed "levene"],
        .ok (decide (lib.levene_p features > eng.significance_level))) := by
  unfold hasEqualVariance
  simp

/-- Method "bartlett" of `hasEqualVariance` on all-normal features. -/
theorem hasEqualVariance_bartlett_ok (eng : TestHypothesis) (lib : StatsLib)
    (features : List (List ℚ))
    (h : ∀ f ∈ features, isNormal eng lib f = true) :
    hasEqualVariance eng lib features "bartlett" =
      ([.statComputed "bartlett"],
        .ok (decide (lib.bartlett_p features > eng.significance_level))) := by
  unfold hasEqualVariance
  have hfalse : features.any (fun f => !isNormal eng lib f) = false := by
    rw [List.any_eq_false]
    intro f hf
    simp [h f hf]
  simp [hfalse]

/-- A successful `OneSampleTtest` result is a `checkSignificance` pair. -/
theorem OneSampleTtest_ok (eng : TestHypothesis) (lib : StatsLib)
    (feature : List ℚ) (meu : ℚ) (clt : Bool) (r : Bool × ℚ)
    (h : (OneSampleTtest eng lib feature meu clt).2 = .ok r) :
    ∃ p, r = (checkSignificance eng p).2 := by
  unfold OneSampleTtest at h
  split at h
  · simp at h
  split at h
  · simp at h
  · exact ⟨lib.ttest_1samp_p feature meu, by simpa using h.symm⟩

/-- A successful `twoSampleTtest` result is a `checkSignificance` pair. -/
theorem twoSampleTtest_ok (eng : TestHypothesis) (lib : StatsLib)
    (feature1 feature2 : List ℚ) (clt : Bool) (r : Bool × ℚ)
    (h : (twoSampleTtest eng lib feature1 feature2 clt).2 = .ok r) :
    ∃ p, r = (checkSignificance eng p).2 := by
  unfold twoSampleTtest at h
  rw [hasEqualVariance_levene_eq] at h
  split at h
  · simp at h
  split at h
  · simp at h
  split at h
  · simp at h
  · exact ⟨_, by simpa using h.symm⟩

/-- A successful `pairedTtest` result is a `checkSignificance` pair. -/
theorem pairedTtest_ok (eng : TestHypothesis) (lib : StatsLib)
    (feature1 feature2 : List ℚ) (clt : Bool) (r : Bool × ℚ)
    (h : (pairedTtest eng lib feature1 feature2 clt).2 = .ok r) :
    ∃ p, r = (checkSignificance eng p).2 := by
  unfold pairedTtest at h
  split at h
  · simp at h
  split at h
  · simp at h
  · exact ⟨lib.ttest_rel_p feature1 feature2, by simpa using h.symm⟩

/-- A successful `ANOVA` result is a `checkSignificance` pair. -/
theorem ANOVA_ok (eng : TestHypothesis) (lib : StatsLib)
    (features : List (List ℚ)) (clt : Bool) (r : Bool × ℚ)
    (h : (ANOVA eng lib features clt).2 = .ok r) :
    ∃ p, r = (checkSignificance eng p).2 := by
  unfold ANOVA at h
  simp only at h
  unfold anovaAfterSizeCheck at h
  cases hn : anovaNormalityCheck eng lib clt features with
  | some e => rw [hn] at h; simp at h
  | none =>
    rw [hn] at h
    cases hv : (hasEqualVariance eng lib features "bartlett").2 with
    | error e => rw [hv] at h; simp at h
    | ok b => rw [hv] at h; exact ⟨lib.f_oneway_p features, by simpa using h.symm⟩

/-- A successful `mannWhitneyUtest` result is a `checkSignificance` pair. -/
theorem mannWhitneyUtest_ok (eng : TestHypothesis) (lib : StatsLib)
    (feature1 feature2 : List ℚ) (r : Bool × ℚ)
    (h : (mannWhitneyUtest eng lib feature1 feature2).2 = .ok r) :
    ∃ p, r = (checkSignificance eng p).2 := by
  unfold mannWhitneyUtest at h
  exact ⟨lib.mannwhitneyu_p feature1 feature2, by simpa using h.symm⟩

/-- A successful `wilcoxonSignedRanktest` result is a `checkSignificance`
pair. -/
theorem wilcoxonSignedRanktest_ok (eng : TestHypothesis) (lib : StatsLib)
    (feature1 feature2 : List ℚ) (r : Bool × ℚ)
    (h : (wilcoxonSignedRanktest eng lib feature1 feature2).2 = .ok r) :
    ∃ p, r = (checkSignificance eng p).2 := by
  unfold wilcoxonSignedRanktest at h
  split at h
  · simp at h
  · exact ⟨lib.wilcoxon_p feature1 feature2, by simpa using h.symm⟩

/-- A successful `kruskalWallis` result is a `checkSignificance` pair. -/
theorem kruskalWallis_ok (eng : TestHypothesis) (lib : StatsLib)
    (features : List (List ℚ)) (r : Bool × ℚ)
    (h : (kruskalWallis eng lib features).2 = .ok r) :
    ∃ p, r = (checkSignificance eng p).2 := by
  unfold kruskalWallis at h
  exact ⟨lib.kruskal_p features, by simpa using h.symm⟩

/-- A successful `chiSquare` result is a `checkSignificance` pair. -/
theorem chiSquare_ok (eng : TestHypothesis) (lib : StatsLib)
    (feature1 feature2 : List ℕ) (r : Bool × ℚ)
    (h : (chiSquare eng lib feature1 feature2).2 = .ok r) :
    ∃ p, r = (checkSignificance eng p).2 := by
  unfold chiSquare at h
  split at h
  · simp at h
  · exact ⟨lib.chi2_contingency_p (crosstab feature1 feature2), by simpa using h.symm⟩

/-- A successful `fisherExacttest` result is a `checkSignificance` pair. -/
theorem fisherExacttest_ok (eng : TestHypothesis) (lib : StatsLib)
    (feature1 feature2 : List ℕ) (r : Bool × ℚ)
    (h : (fisherExacttest eng lib feature1 feature2).2 = .ok r) :
    ∃ p, r = (checkSignificance eng p).2 := by
  unfold fisherExacttest at h
  exact ⟨lib.fisher_exact_p (crosstab feature1 feature2), by simpa using h.symm⟩

/-- A successful `pearsonCorrelation` result is a `checkSignificance`
pair. -/
theorem pearsonCorrelation_ok (eng : TestHypothesis) (lib : StatsLib)
    (feature1 feature2 : List ℚ) (r : Bool × ℚ)
    (h : (pearsonCorrelation eng lib feature1 feature2).2 = .ok r) :
    ∃ p, r = (checkSignificance eng p).2 := by
  unfold pearsonCorrelation at h
  split at h
  · simp at h
  split at h
  · simp at h
  split at h
  · simp at h
  · exact ⟨lib.pearsonr_p feature1 feature2, by simpa using h.symm⟩

/-- A successful `spearmanCorrelation` result is a `checkSignificance`
pair. -/
theorem spearmanCorrelation_ok (eng : TestHypothesis) (lib : StatsLib)
    (feature1 feature2 : List ℚ) (r : Bool × ℚ)
    (h : (spearmanCorrelation eng lib feature1 feature2).2 = .ok r) :
    ∃ p, r = (checkSignificance eng p).2 := by
  unfold spearmanCorrelation at h
  split at h
  · simp at h
  · exact ⟨lib.spearmanr_p feature1 feature2, by simpa using h.symm⟩

/-- Holds when `r` is a `TestResult` produced by some test operation of the engine:
either directly by `checkSignificance`, or returned (as `.ok`) by one of
the eleven test operations. -/
def producedByTestOp (eng : TestHypothesis) (lib : StatsLib) (r : Bool × ℚ) : Prop :=
  (∃ p, (checkSignificance eng p).2 = r) ∨
  (∃ f m c, (OneSampleTtest eng lib f m c).2 = .ok r) ∨
  (∃ f1 f2 c, (twoSampleTtest eng lib f1 f2 c).2 = .ok r) ∨
  (∃ f1 f2 c, (pairedTtest eng lib f1 f2 c).2 = .ok r) ∨
  (∃ fs c, (ANOVA eng lib fs c).2 = .ok r) ∨
  (∃ f1 f2, (mannWhitneyUtest eng lib f1 f2).2 = .ok r) ∨
  (∃ f1 f2, (wilcoxonSignedRanktest eng lib f1 f2).2 = .ok r) ∨
  (∃ fs, (kruskalWallis eng lib fs).2 = .ok r) ∨
  (∃ f1 f2, (chiSquare eng lib f1 f2).2 = .ok r) ∨
  (∃ f1 f2, (fisherExacttest eng lib f1 f2).2 = .ok r) ∨
  (∃ f1 f2, (pearsonCorrelation eng lib f1 f2).2 = .ok r) ∨
  (∃ f1 f2, (spearmanCorrelation eng lib f1 f2).2 = .ok r)

/-- C1: `checkSignificance` returns the pair
`(p_value < significance_level, p_value)` — rejected exactly when the
p-value is strictly below the significance level, with the p-value
unchanged — and every `TestResult` produced by any test operation of the
engine satisfies the same invariant. -/
theorem c1_checkSignificance_invariant (eng : TestHypothesis) (lib : StatsLib)
    (p : ℚ) (r : Bool × ℚ) (h : producedByTestOp eng lib r) :
    (checkSignificance eng p).2 = (decide (p < eng.significance_level), p) ∧
    r.1 = decide (r.2 < eng.significance_level) := by
  refine ⟨checkSignificance_snd eng p, ?_⟩
  have hq : ∃ q, r = (checkSignificance eng q).2 := by
    rcases h with ⟨q, hq⟩ | h | h | h | h | h | h | h | h | h | h | h
    · exact ⟨q, hq.symm⟩
    · obtain ⟨f, m, c, hc⟩ := h; exact OneSampleTtest_ok eng lib f m c r hc
    · obtain ⟨f1, f2, c, hc⟩ := h; exact twoSampleTtest_ok eng lib f1 f2 c r hc
    · obtain ⟨f1, f2, c, hc⟩ := h; exact pairedTtest_ok eng lib f1 f2 c r hc
    · obtain ⟨fs, c, hc⟩ := h; exact ANOVA_ok eng lib fs c r hc
    · obtain ⟨f1, f2, hc⟩ := h; exact mannWhitneyUtest_ok eng lib f1 f2 r hc
    · obtain ⟨f1, f2, hc⟩ := h; exact wilcoxonSignedRanktest_ok eng lib f1 f2 r hc
    · obtain ⟨fs, hc⟩ := h; exact kruskalWallis_ok eng lib fs r hc
    · obtain ⟨f1, f2, hc⟩ := h; exact chiSquare_ok eng lib f1 f2 r hc
    · obtain ⟨f1, f2, hc⟩ := h; exact fisherExacttest_ok eng lib f1 f2 r hc
    · obtain ⟨f1, f2, hc⟩ := h; exact pearsonCorrelation_ok eng lib f1 f2 r hc
    · obtain ⟨f1, f2, hc⟩ := h; exact spearmanCorrelation_ok eng lib f1 f2 r hc
  obtain ⟨q, rfl⟩ := hq
  rw [checkSignificance_snd]

/-- C1 witness: the invariant at the concrete result `(true, 0)` produced
by `checkSignificance` of the 0.05-level engine on p-value 0. -/
theorem c1_witness :
    (checkSignificance engW 0).2 =
      (decide ((0 : ℚ) < engW.significance_level), 0) ∧
    (true, (0 : ℚ)).1 = decide ((true, (0 : ℚ)).2 < engW.significance_level) :=
  c1_checkSignificance_invariant engW libLow 0 (true, 0)
    (Or.inl ⟨0, by norm_num [checkSignificance, engW]⟩)

/-- C2: `twoSampleTtest` on samples of different lengths raises the
size validation error, whatever the samples and the clt flag, with an
empty event trace: no statistic is computed and no verdict is emitted. -/
theorem c2_twoSampleTtest_unequal_lengths (eng : TestHypothesis) (lib : StatsLib)
    (feature1 feature2 : List ℚ) (clt : Bool)
    (h : feature1.length ≠ feature2.length) :
    twoSampleTtest eng lib feature1 feature2 clt =
      ([], .error (.validation "Samples are of different sizes")) := by
  unfold twoSampleTtest
  rw [if_pos h]

/-- C2 witness: a length-1 and a length-2 sample. -/
theorem c2_witness :
    ([(0 : ℚ)].length ≠ [(0 : ℚ), 1].length) ∧
    twoSampleTtest engW libHigh [0] [0, 1] false =
      ([], .error (.validation "Samples are of different sizes")) :=
  ⟨by decide,
   c2_twoSampleTtest_unequal_lengths engW libHigh [0] [0, 1] false (by decide)⟩

/-- C3: on a sample failing `isNormal`, `OneSampleTtest` errors when
`clt` is off; with `clt` on it errors exactly when the sample size is
≤ 30, and for size > 30 it proceeds to the statistic and returns the
`checkSignificance` verdict. -/
theorem c3_OneSampleTtest_clt (eng : TestHypothesis) (lib : StatsLib)
    (feature : List ℚ) (meu : ℚ)
    (h : isNormal eng lib feature = false) :
    (OneSampleTtest eng lib feature meu false).2 =
        .error (.validation "Sample is not Normally distributed") ∧
    (feature.length ≤ 30 →
      (OneSampleTtest eng lib feature meu true).2 =
        .error (.validation "Unable to apply CLT for feature size < 30")) ∧
    (30 < feature.length →
      (OneSampleTtest eng lib feature meu true).2 =
        .ok (checkSignificance eng (lib.ttest_1samp_p feature meu)).2) := by
  refine ⟨?_, ?_, ?_⟩
  · simp [OneSampleTtest, h]
  · intro hlen
    simp [OneSampleTtest, h, hlen]
  · intro hlen
    have hnot : ¬ (feature.length ≤ 30) := Nat.not_le.mpr hlen
    simp [OneSampleTtest, h, hnot]

/-- C3 witness: with an oracle whose Shapiro p-value is 0, a size-20
sample is blocked by the CLT gate while a size-50 sample proceeds. -/
theorem c3_witness :
    (OneSampleTtest engW libLow (List.replicate 20 0) 0 true).2 =
        .error (.validation "Unable to apply CLT for feature size < 30") ∧
    (OneSampleTtest engW libLow (List.replicate 50 0) 0 true).2 =
        .ok (checkSignificance engW (libLow.ttest_1samp_p (List.replicate 50 0) 0)).2 :=
  ⟨(c3_OneSampleTtest_clt engW libLow (List.replicate 20 0) 0
      (by norm_num [isNormal, engW, libLow])).2.1 (by simp),
   (c3_OneSampleTtest_clt engW libLow (List.replicate 50 0) 0
      (by norm_num [isNormal, engW, libLow])).2.2 (by simp)⟩

/-! Helpers for the validation-error ordering and the chi-square
threshold. -/

/-- In an output `(events, result)`, any raised validation error precedes
every statistic computation; since events stop at the raise, no
`statComputed` event may be in the trace of an error output. -/
def noStatBeforeError {α : Type} (out : List Event × Except Err α) : Prop :=
  isErr out.2 = true → ∀ name, Event.statComputed name ∉ out.1

/-- Bartlett `hasEqualVariance` on features with a non-normal member. -/
theorem hasEqualVariance_bartlett_err_eq (eng : TestHypothesis) (lib : StatsLib)
    (features : List (List ℚ))
    (h : features.any (fun f => !isNormal eng lib f) = true) :
    hasEqualVariance eng lib features "bartlett" =
      ([], .error (.validation "Bartlett test requires normality.")) := by
  unfold hasEqualVariance
  simp [h]

/-- Bartlett `hasEqualVariance` on features that all pass `isNormal`. -/
theorem hasEqualVariance_bartlett_ok_any (eng : TestHypothesis) (lib : StatsLib)
    (features : List (List ℚ))
    (h : features.any (fun f => !isNormal eng lib f) = false) :
    hasEqualVariance eng lib features "bartlett" =
      ([.statComputed "bartlett"],
        .ok (decide (lib.bartlett_p features > eng.significance_level))) := by
  unfold hasEqualVariance
  simp [h]

/-- An erroring `anovaAfterSizeCheck` has an empty event trace. -/
theorem anovaAfterSizeCheck_err_events (eng : TestHypothesis) (lib : StatsLib)
    (features : List (List ℚ)) (clt : Bool)
    (h : isErr (anovaAfterSizeCheck eng lib features clt).2 = true) :
    (anovaAfterSizeCheck eng lib features clt).1 = [] := by
  unfold anovaAfterSizeCheck at h ⊢
  cases hn : anovaNormalityCheck eng lib clt features with
  | some e => simp [hn]
  | none =>
    by_cases hany : features.any (fun f => !isNormal eng lib f) = true
    · rw [hasEqualVariance_bartlett_err_eq eng lib features hany]
    · rw [hasEqualVariance_bartlett_ok_any eng lib features
        (Bool.not_eq_true _ ▸ hany), hn] at h
      simp [isErr] at h

/-- An erroring `ANOVA` call emits at most the size warning: its trace
contains no statistic computation and no verdict. -/
theorem ANOVA_err_events (eng : TestHypothesis) (lib : StatsLib)
    (features : List (List ℚ)) (clt : Bool)
    (h : isErr (ANOVA eng lib features clt).2 = true) :
    (ANOVA eng lib features clt).1 =
      (if features.any (fun f => f.length ≠ features.headI.length) then
        [Event.warned anovaSizeWarning] else []) := by
  have h2 : isErr (anovaAfterSizeCheck eng lib features clt).2 = true := by
    unfold ANOVA at h
    simpa using h
  unfold ANOVA
  simp [anovaAfterSizeCheck_err_events eng lib features clt h2]

/-- The source comparison `count > 0.2 * size` on ℚ is the integer
condition `5 * count > size`. -/
theorem chiSquare_cond_iff (feature1 feature2 : List ℕ) :
    ((lowExpectedCount feature1 feature2 : ℚ) >
        (2/10) * ((tableCells feature1 feature2).length : ℚ)) ↔
      5 * lowExpectedCount feature1 feature2 >
        (tableCells feature1 feature2).length := by
  rw [gt_iff_lt, gt_iff_lt, ← Nat.cast_lt (α := ℚ)]
  push_cast
  constructor <;> intro h <;> linarith

/-- Fact: `chiSquare` errors exactly under the integer threshold condition. -/
theorem chiSquare_isErr_iff (eng : TestHypothesis) (lib : StatsLib)
    (feature1 feature2 : List ℕ) :
    isErr (chiSquare eng lib feature1 feature2).2 = true ↔
      5 * lowExpectedCount feature1 feature2 >
        (tableCells feature1 feature2).length := by
  rw [← chiSquare_cond_iff]
  unfold chiSquare
  by_cases h : (lowExpectedCount feature1 feature2 : ℚ) >
      (2/10) * ((tableCells feature1 feature2).length : ℚ) <;>
    simp [h, isErr]

/-- On the fixture table `cx1`/`cx2` (2×2, every expected cell 2), the
low-frequency count is 4 of 4 cells. -/
theorem lowExpectedCount_cx : lowExpectedCount cx1 cx2 = 4 := by
  norm_num [lowExpectedCount, tableCells, expectedFreq, cats, List.product,
    List.filter, cx1, cx2]

/-- The fixture table `cx1`/`cx2` has 4 cells. -/
theorem tableCells_cx : (tableCells cx1 cx2).length = 4 := by
  norm_num [tableCells, cats, List.product, cx1, cx2]

/-- Evaluation of `chiSquare` on the fixture table: the statistic is computed and then
the validation error is raised, for every engine and library oracle. -/
theorem chiSquare_cx_eq (eng : TestHypothesis) (lib : StatsLib) :
    chiSquare eng lib cx1 cx2 =
      ([.statComputed "chi2_contingency"],
        .error (.validation
          "Some expected frequencies are too small, Fishers test is preferred.")) := by
  unfold chiSquare
  rw [if_pos]
  rw [lowExpectedCount_cx, tableCells_cx]
  norm_num

/-- C4 counterexample: on the 2×2 fixture table with all expected cells
below 5, `chiSquare` raises its validation error, yet the chi-square
statistic computation is in the trace — the error is raised after the
statistic is computed, refuting the claim that every validation error
precedes every statistic computation. -/
theorem c4_counterexample :
    isErr (chiSquare engW libHigh cx1 cx2).2 = true ∧
    Event.statComputed "chi2_contingency" ∈ (chiSquare engW libHigh cx1 cx2).1 := by
  rw [chiSquare_cx_eq]
  exact ⟨rfl, List.mem_singleton.mpr rfl⟩

/-- An erroring `OneSampleTtest` has an empty event trace. -/
theorem OneSampleTtest_err_events (eng : TestHypothesis) (lib : StatsLib)
    (feature : List ℚ) (meu : ℚ) (clt : Bool)
    (h : isErr (OneSampleTtest eng lib feature meu clt).2 = true) :
    (OneSampleTtest eng lib feature meu clt).1 = [] := by
  unfold OneSampleTtest at h ⊢
  by_cases h1 : (!isNormal eng lib feature && !clt) = true
  · simp [h1]
  · by_cases h2 : (!isNormal eng lib feature && decide (feature.length ≤ 30)) = true
    · simp [h1, h2]
    · simp [h1, h2, isErr] at h

/-- An erroring `twoSampleTtest` has an empty event trace. -/
theorem twoSampleTtest_err_events (eng : TestHypothesis) (lib : StatsLib)
    (feature1 feature2 : List ℚ) (clt : Bool)
    (h : isErr (twoSampleTtest eng lib feature1 feature2 clt).2 = true) :
    (twoSampleTtest eng lib feature1 feature2 clt).1 = [] := by
  unfold twoSampleTtest at h ⊢
  rw [hasEqualVariance_levene_eq] at h ⊢
  by_cases h1 : feature1.length ≠ feature2.length
  · simp [h1]
  · by_cases h2 : ((!isNormal eng lib feature1 || !isNormal eng lib feature2) && !clt) = true
    · simp [h1, h2]
    · by_cases h3 : ((!isNormal eng lib feature1 || !isNormal eng lib feature2)
          && decide (feature1.length ≤ 30)) = true
      · simp [h1, h2, h3]
      · simp [h1, h2, h3, isErr] at h

/-- An erroring `pairedTtest` has an empty event trace. -/
theorem pairedTtest_err_events (eng : TestHypothesis) (lib : StatsLib)
    (feature1 feature2 : List ℚ) (clt : Bool)
    (h : isErr (pairedTtest eng lib feature1 feature2 clt).2 = true) :
    (pairedTtest eng lib feature1 feature2 clt).1 = [] := by
  unfold pairedTtest at h ⊢
  by_cases h1 : ((!isNormal eng lib feature1 || !isNormal eng lib feature2) && !clt) = true
  · simp [h1]
  · by_cases h2 : ((!isNormal eng lib feature1 || !isNormal eng lib feature2)
        && decide (feature1.length ≤ 30)) = true
    · simp [h1, h2]
    · simp [h1, h2, isErr] at h

/-- An erroring `wilcoxonSignedRanktest` has an empty event trace. -/
theorem wilcoxonSignedRanktest_err_events (eng : TestHypothesis) (lib : StatsLib)
    (feature1 feature2 : List ℚ)
    (h : isErr (wilcoxonSignedRanktest eng lib feature1 feature2).2 = true) :
    (wilcoxonSignedRanktest eng lib feature1 feature2).1 = [] := by
  unfold wilcoxonSignedRanktest at h ⊢
  by_cases h1 : feature1.length ≠ feature2.length
  · simp [h1]
  · simp [h1, isErr] at h

/-- An erroring `pearsonCorrelation` has an empty event trace. -/
theorem pearsonCorrelation_err_events (eng : TestHypothesis) (lib : StatsLib)
    (feature1 feature2 : List ℚ)
    (h : isErr (pearsonCorrelation eng lib feature1 feature2).2 = true) :
    (pearsonCorrelation eng lib feature1 feature2).1 = [] := by
  unfold pearsonCorrelation at h ⊢
  by_cases h1 : feature1.length ≠ feature2.length
  · simp [h1]
  · by_cases h2 : (sampleVarZero feature1 || sampleVarZero feature2) = true
    · simp [h1, h2]
    · by_cases h3 : (!isNormal eng lib feature1 || !isNormal eng lib feature2) = true
      · simp [h1, h2, h3]
      · simp [h1, h2, h3, isErr] at h

/-- An erroring `spearmanCorrelation` has an empty event trace. -/
theorem spearmanCorrelation_err_events (eng : TestHypothesis) (lib : StatsLib)
    (feature1 feature2 : List ℚ)
    (h : isErr (spearmanCorrelation eng lib feature1 feature2).2 = true) :
    (spearmanCorrelation eng lib feature1 feature2).1 = [] := by
  unfold spearmanCorrelation at h ⊢
  by_cases h1 : feature1.length ≠ feature2.length
  · simp [h1]
  · simp [h1, isErr] at h

/-- Fact: `mannWhitneyUtest` never raises. -/
theorem mannWhitneyUtest_no_err (eng : TestHypothesis) (lib : StatsLib)
    (feature1 feature2 : List ℚ) :
    isErr (mannWhitneyUtest eng lib feature1 feature2).2 = false := by
  unfold mannWhitneyUtest
  simp [isErr]

/-- Fact: `kruskalWallis` never raises. -/
theorem kruskalWallis_no_err (eng : TestHypothesis) (lib : StatsLib)
    (features : List (List ℚ)) :
    isErr (kruskalWallis eng lib features).2 = false := by
  unfold kruskalWallis
  simp [isErr]

/-- Fact: `fisherExacttest` never raises. -/
theorem fisherExacttest_no_err (eng : TestHypothesis) (lib : StatsLib)
    (feature1 feature2 : List ℕ) :
    isErr (fisherExacttest eng lib feature1 feature2).2 = false := by
  unfold fisherExacttest
  simp [isErr]

/-- C4 (amended): every validation error of every test operation other
than `chiSquare` is raised before any test statistic is computed — an
error output carries no `statComputed` event.  In `chiSquare` the
low-expected-frequency validation error is instead raised just after the
chi-square statistic is computed (the expected frequencies come from that
computation): its error trace is exactly the statistic computation, with
no verdict after it. -/
theorem c4_amended_error_before_statistic (eng : TestHypothesis) (lib : StatsLib) :
    (∀ f m c, noStatBeforeError (OneSampleTtest eng lib f m c)) ∧
    (∀ f1 f2 c, noStatBeforeError (twoSampleTtest eng lib f1 f2 c)) ∧
    (∀ f1 f2 c, noStatBeforeError (pairedTtest eng lib f1 f2 c)) ∧
    (∀ fs c, noStatBeforeError (ANOVA eng lib fs c)) ∧
    (∀ f1 f2, noStatBeforeError (mannWhitneyUtest eng lib f1 f2)) ∧
    (∀ f1 f2, noStatBeforeError (wilcoxonSignedRanktest eng lib f1 f2)) ∧
    (∀ fs, noStatBeforeError (kruskalWallis eng lib fs)) ∧
    (∀ f1 f2, noStatBeforeError (fisherExacttest eng lib f1 f2)) ∧
    (∀ f1 f2, noStatBeforeError (pearsonCorrelation eng lib f1 f2)) ∧
    (∀ f1 f2, noStatBeforeError (spearmanCorrelation eng lib f1 f2)) ∧
    (∀ f1 f2, isErr (chiSquare eng lib f1 f2).2 = true →
      (chiSquare eng lib f1 f2).1 = [Event.statComputed "chi2_contingency"]) := by
  refine ⟨?_, ?_, ?_, ?_, ?_, ?_, ?_, ?_, ?_, ?_, ?_⟩
  · intro f m c h name
    rw [OneSampleTtest_err_events eng lib f m c h]
    simp
  · intro f1 f2 c h name
    rw [twoSampleTtest_err_events eng lib f1 f2 c h]
    simp
  · intro f1 f2 c h name
    rw [pairedTtest_err_events eng lib f1 f2 c h]
    simp
  · intro fs c h name
    rw [ANOVA_err_events eng lib fs c h]
    split <;> simp
  · intro f1 f2 h
    rw [mannWhitneyUtest_no_err eng lib f1 f2] at h
    exact absurd h (by simp)
  · intro f1 f2 h name
    rw [wilcoxonSignedRanktest_err_events eng lib f1 f2 h]
    simp
  · intro fs h
    rw [kruskalWallis_no_err eng lib fs] at h
    exact absurd h (by simp)
  · intro f1 f2 h
    rw [fisherExacttest_no_err eng lib f1 f2] at h
    exact absurd h (by simp)
  · intro f1 f2 h name
    rw [pearsonCorrelation_err_events eng lib f1 f2 h]
    simp
  · intro f1 f2 h name
    rw [spearmanCorrelation_err_events eng lib f1 f2 h]
    simp
  · intro f1 f2 h
    unfold chiSquare at h ⊢
    by_cases hc : (lowExpectedCount f1 f2 : ℚ) >
        (2/10) * ((tableCells f1 f2).length : ℚ)
    · simp [hc]
    · simp [hc, isErr] at h

/-- C4 (amended) witness: the size validation error of `twoSampleTtest`
on samples of lengths 1 and 2 leaves no statistic computation in the
trace, and the erroring `chiSquare` on the fixture table has exactly the
statistic computation as its trace. -/
theorem c4_witness :
    (Event.statComputed "ttest_ind" ∉ (twoSampleTtest engW libHigh [0] [0, 1] false).1) ∧
    (chiSquare engW libHigh cx1 cx2).1 = [Event.statComputed "chi2_contingency"] :=
  ⟨(c4_amended_error_before_statistic engW libHigh).2.1 [0] [0, 1] false
      (by norm_num [twoSampleTtest, isErr]) "ttest_ind",
   (c4_amended_error_before_statistic engW libHigh).2.2.2.2.2.2.2.2.2.2 cx1 cx2
      (by rw [chiSquare_cx_eq]; rfl)⟩

/-- All expected frequencies of the fixture table are below 5. -/
theorem expectedFreq_cx_low :
    ∀ c ∈ tableCells cx1 cx2, expectedFreq cx1 cx2 c.1 c.2 < 5 := by
  simp only [tableCells, cats, cx1, cx2, expectedFreq]
  norm_num [List.product, List.filter]

/-- C5: `chiSquare` raises exactly when strictly more than 20% of the
expected-frequency cells of the contingency table are below 5 (the
integer form `5 * lowCount > cellCount`); otherwise it returns the
significance verdict for the chi-square p-value.  In particular on the
2×2 fixture table, where every expected cell is below 5, it raises. -/
theorem c5_chiSquare_threshold (eng : TestHypothesis) (lib : StatsLib)
    (feature1 feature2 : List ℕ)
    (hok : 5 * lowExpectedCount feature1 feature2 ≤
      (tableCells feature1 feature2).length) :
    (∀ g1 g2 : List ℕ, isErr (chiSquare eng lib g1 g2).2 = true ↔
      5 * lowExpectedCount g1 g2 > (tableCells g1 g2).length) ∧
    (chiSquare eng lib feature1 feature2).2 =
      .ok (checkSignificance eng
        (lib.chi2_contingency_p (crosstab feature1 feature2))).2 ∧
    (isErr (chiSquare eng lib cx1 cx2).2 = true ∧
      ∀ c ∈ tableCells cx1 cx2, expectedFreq cx1 cx2 c.1 c.2 < 5) := by
  refine ⟨fun g1 g2 => chiSquare_isErr_iff eng lib g1 g2, ?_, ?_, expectedFreq_cx_low⟩
  · have hc : ¬ ((lowExpectedCount feature1 feature2 : ℚ) >
        (2/10) * ((tableCells feature1 feature2).length : ℚ)) := by
      rw [chiSquare_cond_iff]
      omega
    unfold chiSquare
    simp [hc]
  · rw [chiSquare_cx_eq]
    rfl

set_option maxRecDepth 8192 in
/-- C5 witness: a 2×2 table of 40 observations with every cell count 10
(every expected frequency 10 ≥ 5): no cell is low, so `chiSquare`
returns the verdict. -/
theorem c5_witness :
    (chiSquare engW libHigh cy1 cy2).2 =
      .ok (checkSignificance engW
        (libHigh.chi2_contingency_p (crosstab cy1 cy2))).2 :=
  (c5_chiSquare_threshold engW libHigh cy1 cy2
    (by norm_num [lowExpectedCount, tableCells, expectedFreq, cats,
      List.product, List.filter, cy1, cy2])).2.1

/-- C6: `hasEqualVariance` with method "bartlett" raises exactly when
some sample fails `isNormal`; the default "levene" method performs no
normality check and never raises; in the non-error case the returned
flag is true iff the variance-test p-value strictly exceeds the
significance level. -/
theorem c6_hasEqualVariance_methods (eng : TestHypothesis) (lib : StatsLib)
    (features : List (List ℚ)) :
    (isErr (hasEqualVariance eng lib features "bartlett").2 = true ↔
      ∃ f ∈ features, isNormal eng lib f = false) ∧
    isErr (hasEqualVariance eng lib features "levene").2 = false ∧
    (∀ b, (hasEqualVariance eng lib features "bartlett").2 = .ok b →
      (b = true ↔ lib.bartlett_p features > eng.significance_level)) ∧
    (∀ b, (hasEqualVariance eng lib features "levene").2 = .ok b →
      (b = true ↔ lib.levene_p features > eng.significance_level)) := by
  refine ⟨hasEqualVariance_bartlett_isErr eng lib features, ?_, ?_, ?_⟩
  · rw [hasEqualVariance_levene_eq]
    rfl
  · intro b hb
    by_cases hany : features.any (fun f => !isNormal eng lib f) = true
    · rw [hasEqualVariance_bartlett_err_eq eng lib features hany] at hb
      simp at hb
    · rw [hasEqualVariance_bartlett_ok_any eng lib features
        (Bool.not_eq_true _ ▸ hany)] at hb
      simp only [Except.ok.injEq] at hb
      subst hb
      simp
  · intro b hb
    rw [hasEqualVariance_levene_eq] at hb
    simp only [Except.ok.injEq] at hb
    subst hb
    simp

/-- C6 witness: bartlett on one all-normal sample list returns the
bartlett comparison; levene with an all-low oracle returns false. -/
theorem c6_witness :
    (true = true ↔ libHigh.bartlett_p [[1, 2]] > engW.significance_level) ∧
    (false = true ↔ libLow.levene_p [[1, 2]] > engW.significance_level) :=
  ⟨(c6_hasEqualVariance_methods engW libHigh [[1, 2]]).2.2.1 true
      (by norm_num [hasEqualVariance, isNormal, libHigh, engW]),
   (c6_hasEqualVariance_methods engW libLow [[1, 2]]).2.2.2 false
      (by rw [hasEqualVariance_levene_eq]; norm_num [libLow, engW])⟩

/-- C7: `pearsonCorrelation` with a zero-sample-variance input always
raises a validation error, regardless of the other sample; the
precondition checks fire in the order length equality, then nonzero
variance, then normality. -/
theorem c7_pearson_zero_variance (eng : TestHypothesis) (lib : StatsLib)
    (feature1 feature2 : List ℚ)
    (hvar : sampleVarZero feature1 = true ∨ sampleVarZero feature2 = true) :
    isErr (pearsonCorrelation eng lib feature1 feature2).2 = true ∧
    (feature1.length ≠ feature2.length →
      (pearsonCorrelation eng lib feature1 feature2).2 =
        .error (.validation
          "Sample lenghts are not equal.\nTry using downsampling methods.")) ∧
    (feature1.length = feature2.length →
      (pearsonCorrelation eng lib feature1 feature2).2 =
        .error (.validation
          "Variance of feature should not be 0.\nTry using Spearman Correlation instead.")) ∧
    (∀ g1 g2 : List ℚ, g1.length = g2.length → sampleVarZero g1 = false →
      sampleVarZero g2 = false →
      (isNormal eng lib g1 = false ∨ isNormal eng lib g2 = false) →
      (pearsonCorrelation eng lib g1 g2).2 =
        .error (.validation "Samples are not normally distributed.")) := by
  have hv : (sampleVarZero feature1 || sampleVarZero feature2) = true := by
    rcases hvar with h | h <;> simp [h]
  refine ⟨?_, ?_, ?_, ?_⟩
  · unfold pearsonCorrelation
    by_cases hlen : feature1.length ≠ feature2.length
    · simp [hlen, isErr]
    · simp [hlen, hv, isErr]
  · intro hlen
    unfold pearsonCorrelation
    simp [hlen]
  · intro hlen
    unfold pearsonCorrelation
    simp [hlen, hv]
  · intro g1 g2 hlen hv1 hv2 hnorm
    have hn : (!isNormal eng lib g1 || !isNormal eng lib g2) = true := by
      rcases hnorm with h | h <;> simp [h]
    unfold pearsonCorrelation
    simp [hlen, hv1, hv2, hn]

/-- C7 witness: the constant sample `[3, 3, 3, 3]` (sample variance 0)
against an equal-length sample triggers the zero-variance error. -/
theorem c7_witness :
    (pearsonCorrelation engW libHigh [3, 3, 3, 3] [1, 2, 3, 4]).2 =
      .error (.validation
        "Variance of feature should not be 0.\nTry using Spearman Correlation instead.") :=
  (c7_pearson_zero_variance engW libHigh [3, 3, 3, 3] [1, 2, 3, 4]
    (Or.inl (by norm_num [sampleVarZero, ssd, sampleMean]))).2.2.1 rfl

/-- C8: given the library returns the exact-tie p-value 1 on two
identical samples (the boundary case of the signed-rank test), the test
does not raise and returns `(rejected = false, p_value = 1)` for any
significance level ≤ 1; on samples of differing lengths it raises the
size validation error instead. -/
theorem c8_wilcoxon_identical (eng : TestHypothesis) (lib : StatsLib)
    (f feature1 feature2 : List ℚ)
    (hp : lib.wilcoxon_p f f = 1) (hα : eng.significance_level ≤ 1) :
    (wilcoxonSignedRanktest eng lib f f).2 = .ok (false, 1) ∧
    (feature1.length ≠ feature2.length →
      (wilcoxonSignedRanktest eng lib feature1 feature2).2 =
        .error (.validation
          "Sample sizes are different.\nTry using samples with same sizes")) := by
  constructor
  · unfold wilcoxonSignedRanktest
    simp [hp, checkSignificance_snd, decide_eq_false (not_lt.mpr hα)]
  · intro hlen
    unfold wilcoxonSignedRanktest
    simp [hlen]

/-- C8 witness: two copies of `[1, 2, 3]` with a tie-returning oracle
give `(false, 1)`; lengths 1 and 2 raise. -/
theorem c8_witness :
    (wilcoxonSignedRanktest engW libHigh [1, 2, 3] [1, 2, 3]).2 = .ok (false, 1) ∧
    (wilcoxonSignedRanktest engW libHigh [1] [1, 2]).2 =
      .error (.validation
        "Sample sizes are different.\nTry using samples with same sizes") :=
  ⟨(c8_wilcoxon_identical engW libHigh [1, 2, 3] [1] [1, 2] rfl
      (by norm_num [engW])).1,
   (c8_wilcoxon_identical engW libHigh [1, 2, 3] [1] [1, 2] rfl
      (by norm_num [engW])).2 (by decide)⟩

/-- Any error of the ANOVA normality loop is one of its two messages. -/
theorem anovaNormalityCheck_cases (eng : TestHypothesis) (lib : StatsLib)
    (clt : Bool) (features : List (List ℚ)) (e : Err)
    (h : anovaNormalityCheck eng lib clt features = some e) :
    e = .validation "Sample is not Normally distributed" ∨
    e = .validation "Unable to apply CLT for feature size < 30" := by
  induction features with
  | nil => simp [anovaNormalityCheck] at h
  | cons f rest ih =>
    unfold anovaNormalityCheck at h
    by_cases h1 : (!isNormal eng lib f) = true
    · rw [if_pos h1] at h
      by_cases h2 : (!clt) = true
      · rw [if_pos h2] at h
        exact Or.inl (Option.some.inj h).symm
      · rw [if_neg h2] at h
        by_cases h3 : f.length ≤ 30
        · rw [if_pos h3] at h
          exact Or.inr (Option.some.inj h).symm
        · rw [if_neg h3] at h
          exact ih h
    · rw [if_neg h1] at h
      exact ih h

/-- Any error of the post-warning ANOVA pipeline is a normality, CLT, or
bartlett error — never a sample-size error. -/
theorem anovaAfterSizeCheck_err_cases (eng : TestHypothesis) (lib : StatsLib)
    (features : List (List ℚ)) (clt : Bool) (e : Err)
    (h : (anovaAfterSizeCheck eng lib features clt).2 = .error e) :
    e = .validation "Sample is not Normally distributed" ∨
    e = .validation "Unable to apply CLT for feature size < 30" ∨
    e = .validation "Bartlett test requires normality." := by
  unfold anovaAfterSizeCheck at h
  cases hn : anovaNormalityCheck eng lib clt features with
  | some e2 =>
    rw [hn] at h
    simp only at h
    obtain rfl : e2 = e := by simpa using h
    rcases anovaNormalityCheck_cases eng lib clt features e2 hn with h1 | h2
    · exact Or.inl h1
    · exact Or.inr (Or.inl h2)
  | none =>
    rw [hn] at h
    by_cases hany : features.any (fun f => !isNormal eng lib f) = true
    · rw [hasEqualVariance_bartlett_err_eq eng lib features hany] at h
      simp only at h
      exact Or.inr (Or.inr (by simpa using h.symm))
    · rw [hasEqualVariance_bartlett_ok_any eng lib features
        (Bool.not_eq_true _ ▸ hany)] at h
      simp at h

/-- C9: when the length of some sample differs from that of the first,
`ANOVA` emits the advisory size warning and continues: its returned
result is exactly that of the post-warning pipeline, and any validation
error it raises is a normality, CLT, or bartlett error — the size
mismatch itself never aborts. -/
theorem c9_ANOVA_size_warning (eng : TestHypothesis) (lib : StatsLib)
    (features : List (List ℚ)) (clt : Bool)
    (h : ∃ f ∈ features, f.length ≠ features.headI.length) :
    Event.warned anovaSizeWarning ∈ (ANOVA eng lib features clt).1 ∧
    (ANOVA eng lib features clt).2 = (anovaAfterSizeCheck eng lib features clt).2 ∧
    (∀ e, (ANOVA eng lib features clt).2 = .error e →
      e = .validation "Sample is not Normally distributed" ∨
      e = .validation "Unable to apply CLT for feature size < 30" ∨
      e = .validation "Bartlett test requires normality.") := by
  have hany : (features.any fun f => decide (f.length ≠ features.headI.length)) = true := by
    rw [List.any_eq_true]
    obtain ⟨f, hf, hne⟩ := h
    exact ⟨f, hf, by simpa using hne⟩
  refine ⟨?_, ?_, ?_⟩
  · unfold ANOVA
    simp [hany]
    exact Or.inl h
  · unfold ANOVA
    simp
  · intro e he
    have h2 : (anovaAfterSizeCheck eng lib features clt).2 = .error e := by
      unfold ANOVA at he
      simpa using he
    exact anovaAfterSizeCheck_err_cases eng lib features clt e h2

/-- C9 witness: samples of lengths 3 and 2 trigger the warning. -/
theorem c9_witness :
    Event.warned anovaSizeWarning ∈
      (ANOVA engW libHigh [[1, 2, 3], [1, 2]] false).1 :=
  (c9_ANOVA_size_warning engW libHigh [[1, 2, 3], [1, 2]] false
    ⟨[1, 2], by simp, by simp⟩).1

/-- C10: whenever any input sample fails `isNormal`, `ANOVA` raises a
validation error, for every clt flag — even when every non-normal sample
has size > 30 and passes the CLT relaxation of the ANOVA loop, the subsequent
bartlett variance check re-validates normality and raises, so ANOVA
never returns a result on non-normal input. -/
theorem c10_ANOVA_nonnormal_errors (eng : TestHypothesis) (lib : StatsLib)
    (features : List (List ℚ)) (clt : Bool)
    (h : ∃ f ∈ features, isNormal eng lib f = false) :
    isErr (ANOVA eng lib features clt).2 = true := by
  have h2 : isErr (anovaAfterSizeCheck eng lib features clt).2 = true := by
    unfold anovaAfterSizeCheck
    cases hn : anovaNormalityCheck eng lib clt features with
    | some e => simp [isErr]
    | none =>
      have hany : features.any (fun f => !isNormal eng lib f) = true := by
        rw [List.any_eq_true]
        obtain ⟨f, hf, hne⟩ := h
        exact ⟨f, hf, by simp [hne]⟩
      rw [hasEqualVariance_bartlett_err_eq eng lib features hany]
      simp [isErr]
  unfold ANOVA
  simpa using h2

/-- C10 witness: a single non-normal sample of size 31 with clt on:
the ANOVA loop itself waives normality (size > 30) but bartlett raises. -/
theorem c10_witness :
    isErr (ANOVA engW libLow [List.replicate 31 0] true).2 = true :=
  c10_ANOVA_nonnormal_errors engW libLow [List.replicate 31 0] true
    ⟨List.replicate 31 0, by simp, by norm_num [isNormal, engW, libLow]⟩
